import Mathlib

/-!
Verification development for a project-tracking REST backend
(projects / sprints / issues / comments / worklogs / attachments,
role- and ownership-based authorization).

The Python application layer is shallowly embedded: database tables become
lists of rows inside a `DB` value, route handlers become total functions
from `DB` (plus the acting principal and request arguments) to an
`Except HTTPException result` together with the possibly-updated state,
and the filesystem used by the attachment endpoints becomes an explicit
list of file paths.  External black boxes (the bcrypt verifier, the
stored procedure bodies that live inside the database) are function
parameters that theorems quantify over.
-/

/-- HTTP error raised by a handler: status code plus detail string. -/
structure HTTPException where
  status_code : Nat
  detail : String
deriving DecidableEq, Repr

/-- Row of the User table (fields used by the application logic). -/
structure UserRow where
  user_id : Int
  username : String
  role : String
  password_hash : String
deriving DecidableEq, Repr

/-- Row of the Project table (fields used by the application logic). -/
structure ProjectRow where
  project_id : Int
  owner_id : Int
deriving DecidableEq, Repr

/-- Row of the Sprint table (fields used by the application logic). -/
structure SprintRow where
  sprint_id : Int
  project_id : Int
deriving DecidableEq, Repr

/-- Association list of column name to (stringly-typed) column value,
mirroring the dict rows the Python layer receives from the driver. -/
abbrev RowKV := List (String × String)

/-- Row of the Issue table.  The authorization-relevant columns are
structured; the remaining general-purpose columns (description,
issue_type, priority, due_date, story_points, parent_issue_id) live in
the `cols` association list, which is exactly the set of columns the
dynamic UPDATE of crud/issue.py may touch. -/
structure IssueRow where
  issue_id : Int
  project_id : Int
  sprint_id : Option Int
  reporter_id : Option Int
  assignee_id : Option Int
  cols : RowKV
deriving DecidableEq, Repr

/-- Row of the Comment table (fields used by the application logic). -/
structure CommentRow where
  comment_id : Int
  issue_id : Int
  user_id : Option Int
  comment_text : String
deriving DecidableEq, Repr

/-- Row of the Worklog table.  The authorization-relevant columns are
structured; the mutable columns (hours_logged, work_date, description)
live in the `cols` association list, which is exactly the set of columns
the dynamic UPDATE of crud/worklog.py may touch. -/
structure WorklogRow where
  worklog_id : Int
  issue_id : Int
  user_id : Option Int
  cols : RowKV
deriving DecidableEq, Repr

/-- Row of the Attachment table (fields used by the application logic). -/
structure AttachmentRow where
  attachment_id : Int
  issue_id : Int
  user_id : Option Int
  file_name : String
  file_path : String
deriving DecidableEq, Repr

/-- The relational store: one list of rows per table. -/
structure DB where
  users : List UserRow
  projects : List ProjectRow
  sprints : List SprintRow
  issues : List IssueRow
  comments : List CommentRow
  worklogs : List WorklogRow
  attachments : List AttachmentRow
deriving DecidableEq, Repr

/-- The attachment file store: the set of paths present on disk. -/
structure FS where
  files : List String
deriving DecidableEq, Repr

/-- Embeds settings.UPLOAD_DIRECTORY_NAME from config.py. -/
def settingsUploadDirectoryName : String := "uploads"

/-- Embeds crud/user.py get_user_by_id. -/
def get_user_by_id (db : DB) (user_id : Int) : Option UserRow :=
  db.users.find? (fun u => u.user_id == user_id)

/-- Embeds crud/user.py get_user_by_username. -/
def get_user_by_username (db : DB) (username : String) : Option UserRow :=
  db.users.find? (fun u => u.username == username)

/-- Embeds crud/project.py get_project_by_id. -/
def get_project_by_id (db : DB) (project_id : Int) : Option ProjectRow :=
  db.projects.find? (fun p => p.project_id == project_id)

/-- Embeds crud/sprint.py get_sprint_by_id. -/
def get_sprint_by_id (db : DB) (sprint_id : Int) : Option SprintRow :=
  db.sprints.find? (fun s => s.sprint_id == sprint_id)

/-- Embeds crud/issue.py get_issue_by_id. -/
def get_issue_by_id (db : DB) (issue_id : Int) : Option IssueRow :=
  db.issues.find? (fun i => i.issue_id == issue_id)

/-- Embeds crud/comment.py get_comment_by_id. -/
def get_comment_by_id (db : DB) (comment_id : Int) : Option CommentRow :=
  db.comments.find? (fun c => c.comment_id == comment_id)

/-- Embeds crud/worklog.py get_worklog_by_id. -/
def get_worklog_by_id (db : DB) (worklog_id : Int) : Option WorklogRow :=
  db.worklogs.find? (fun w => w.worklog_id == worklog_id)

/-- Embeds crud/attachment.py get_attachment_by_id. -/
def get_attachment_by_id (db : DB) (attachment_id : Int) : Option AttachmentRow :=
  db.attachments.find? (fun a => a.attachment_id == attachment_id)

/-- Embeds crud/sprint.py get_sprints_by_project_id (LIMIT/OFFSET become
take/drop; the SQL ORDER BY is not modelled, rows keep table order). -/
def get_sprints_by_project_id (db : DB) (project_id : Int) (skip limit : Nat) :
    List SprintRow :=
  ((db.sprints.filter (fun s => s.project_id == project_id)).drop skip).take limit

/-- Embeds crud/issue.py get_issues_by_project_id. -/
def get_issues_by_project_id (db : DB) (project_id : Int) (skip limit : Nat) :
    List IssueRow :=
  ((db.issues.filter (fun i => i.project_id == project_id)).drop skip).take limit

/-- Embeds crud/issue.py get_issues_by_sprint_id. -/
def get_issues_by_sprint_id (db : DB) (sprint_id : Int) (skip limit : Nat) :
    List IssueRow :=
  ((db.issues.filter (fun i => i.sprint_id == some sprint_id)).drop skip).take limit

/-- Embeds routers/projects.py read_project_by_id: 404 when the project
is missing, otherwise the project is returned to ANY authenticated user
(the handler performs no ownership or role check). -/
def read_project_by_id (db : DB) (current_user : UserRow) (project_id : Int) :
    Except HTTPException ProjectRow :=
  match get_project_by_id db project_id with
  | none => .error ⟨404, "Project not found"⟩
  | some project => .ok project

/-- Embeds routers/projects.py read_project_sprints: delegates the
existence/access check to read_project_by_id, then lists the sprints. -/
def read_project_sprints (db : DB) (current_user : UserRow) (project_id : Int)
    (skip limit : Nat) : Except HTTPException (List SprintRow) :=
  match read_project_by_id db current_user project_id with
  | .error e => .error e
  | .ok _ => .ok (get_sprints_by_project_id db project_id skip limit)

/-- Embeds routers/projects.py read_project_issues: delegates the
existence/access check to read_project_by_id, then lists the issues. -/
def read_project_issues (db : DB) (current_user : UserRow) (project_id : Int)
    (skip limit : Nat) : Except HTTPException (List IssueRow) :=
  match read_project_by_id db current_user project_id with
  | .error e => .error e
  | .ok _ => .ok (get_issues_by_project_id db project_id skip limit)

/-- Embeds core/security.py verify_password: the external bcrypt verifier
is a parameter that may fail (`none` models a raised exception); any
internal error is treated as verification failure (fail closed). -/
def verify_password (ext : String → String → Option Bool)
    (plain_password hashed_password : String) : Bool :=
  (ext plain_password hashed_password).getD false

/-- Embeds core/security.py authenticate_user: fetch by username, then
verify the password; both an unknown username and a failed verification
return `none`. -/
def authenticate_user (ext : String → String → Option Bool) (db : DB)
    (username password : String) : Option UserRow :=
  match get_user_by_username db username with
  | none => none
  | some user =>
    if ¬ verify_password ext password user.password_hash then none
    else some user

/-- Embeds the shared helper of routers/issues.py and routers/worklogs.py
get_project_and_check_read_access: 404 on a missing project, 403 when the
principal is neither admin nor the project owner. -/
def get_project_and_check_read_access (db : DB) (current_user : UserRow)
    (project_id : Int) : Except HTTPException ProjectRow :=
  match get_project_by_id db project_id with
  | none => .error ⟨404, "Project not found"⟩
  | some project =>
    if current_user.role ≠ "admin" ∧ project.owner_id ≠ current_user.user_id then
      .error ⟨403, "Not authorized to access this project"⟩
    else .ok project

/-- Embeds routers/issues.py get_issue_and_check_write_access: 404 on a
missing issue, 500 (inconsistent data) on a missing parent project, 403
when the principal is none of admin / project owner / reporter /
assignee. -/
def get_issue_and_check_write_access (db : DB) (current_user : UserRow)
    (issue_id : Int) : Except HTTPException IssueRow :=
  match get_issue_by_id db issue_id with
  | none => .error ⟨404, "Issue not found"⟩
  | some db_issue =>
    match get_project_by_id db db_issue.project_id with
    | none => .error ⟨500, "Issue data is inconsistent"⟩
    | some project =>
      if current_user.role ≠ "admin" ∧ project.owner_id ≠ current_user.user_id ∧
          db_issue.reporter_id ≠ some current_user.user_id ∧
          db_issue.assignee_id ≠ some current_user.user_id then
        .error ⟨403, "Not authorized to modify this issue"⟩
      else .ok db_issue

/-- Columns of crud/issue.py update_issue's allow-list. -/
def issueAllowedColumns : List String :=
  ["description", "issue_type", "priority", "due_date", "story_points",
   "parent_issue_id"]

/-- Applies a list of SET clauses to an association-list row, mirroring a
SQL UPDATE of the named columns. -/
def applySetClauses (set_clauses : RowKV) (row : RowKV) : RowKV :=
  set_clauses.foldl
    (fun acc kv => acc.map (fun c => if c.1 == kv.1 then (c.1, kv.2) else c)) row

/-- Embeds crud/issue.py update_issue over the structured DB: only the
allow-listed columns of the set fields are written; an empty or fully
filtered-out patch performs no UPDATE.  The Bool records whether an
UPDATE statement was executed. -/
def update_issue (db : DB) (issue_id : Int) (fields_to_update : RowKV) :
    Option IssueRow × DB × Bool :=
  if fields_to_update.isEmpty then (get_issue_by_id db issue_id, db, false)
  else
    let set_clauses := fields_to_update.filter
      (fun kv => issueAllowedColumns.contains kv.1)
    if set_clauses.isEmpty then (get_issue_by_id db issue_id, db, false)
    else
      let db' : DB := { db with
        issues := db.issues.map (fun i =>
          if i.issue_id == issue_id then
            { i with cols := applySetClauses set_clauses i.cols }
          else i) }
      (get_issue_by_id db' issue_id, db', true)

/-- Embeds crud/issue.py delete_issue: DELETE by id; the deleted flag is
rows_affected > 0, i.e. whether a row with that id existed. -/
def delete_issue (db : DB) (issue_id : Int) : Bool × DB :=
  ((get_issue_by_id db issue_id).isSome,
   { db with issues := db.issues.filter (fun i => i.issue_id != issue_id) })

/-- Embeds routers/issues.py update_existing_issue: the write-access
dependency gates the update; its 403/404/500 short-circuits with the
store untouched. -/
def update_existing_issue (db : DB) (current_user : UserRow) (issue_id : Int)
    (fields_to_update : RowKV) : Except HTTPException (Option IssueRow) × DB :=
  match get_issue_and_check_write_access db current_user issue_id with
  | .error e => (.error e, db)
  | .ok issue =>
    let r := update_issue db issue.issue_id fields_to_update
    (.ok r.1, r.2.1)

/-- Embeds crud/issue.py update_issue_status.  The body of the
UpdateIssueStatus stored procedure lives inside the database and is a
parameter `proc`; a database error becomes a ValueError carrying the
procedure's message, and the transaction is rolled back. -/
def update_issue_status (proc : DB → Int → String → Except String DB) (db : DB)
    (issue_id : Int) (status_in : String) :
    Except String (Option IssueRow × DB) :=
  match proc db issue_id status_in with
  | .error m => .error ("Failed to update status: " ++ m)
  | .ok db' => .ok (get_issue_by_id db' issue_id, db')

/-- Embeds routers/issues.py update_issue_status_endpoint: write-access
dependency, then the stored-procedure-backed status update; a ValueError
from the procedure maps to 400. -/
def update_issue_status_endpoint (proc : DB → Int → String → Except String DB)
    (db : DB) (current_user : UserRow) (issue_id : Int) (status_in : String) :
    Except HTTPException (Option IssueRow) × DB :=
  match get_issue_and_check_write_access db current_user issue_id with
  | .error e => (.error e, db)
  | .ok issue =>
    match update_issue_status proc db issue.issue_id status_in with
    | .error m => (.error ⟨400, m⟩, db)
    | .ok (updated, db') => (.ok updated, db')

/-- Embeds routers/issues.py delete_issue_by_id: write-access dependency,
then DELETE; 404 if the delete affected no row. -/
def delete_issue_by_id (db : DB) (current_user : UserRow) (issue_id : Int) :
    Except HTTPException Unit × DB :=
  match get_issue_and_check_write_access db current_user issue_id with
  | .error e => (.error e, db)
  | .ok issue =>
    match delete_issue db issue.issue_id with
    | (true, db') => (.ok (), db')
    | (false, db') =>
      (.error ⟨404, "Issue not found or could not be deleted"⟩, db')

/-- Record of which issue-store list query a request executed. -/
inductive IssueQuery where
  | bySprint (sprint_id : Int)
  | byProject (project_id : Int)
deriving DecidableEq, Repr

/-- Python truthiness of an optional integer query parameter: absent and
zero are both falsy. -/
def truthyInt : Option Int → Bool
  | none => false
  | some n => n != 0

/-- Embeds routers/issues.py read_issues: branch on the truthiness of
sprint_id then project_id; with neither filter the handler raises 400
before any issue-store query.  The second component logs the issue-store
list queries that were executed. -/
def read_issues (db : DB) (current_user : UserRow)
    (project_id sprint_id : Option Int) (skip limit : Nat) :
    Except HTTPException (List IssueRow) × List IssueQuery :=
  if truthyInt sprint_id then
    let sid := sprint_id.getD 0
    match get_sprint_by_id db sid with
    | none => (.error ⟨404, "Sprint not found"⟩, [])
    | some sprint =>
      match get_project_and_check_read_access db current_user sprint.project_id with
      | .error e => (.error e, [])
      | .ok _ =>
        (.ok (get_issues_by_sprint_id db sid skip limit), [.bySprint sid])
  else if truthyInt project_id then
    let pid := project_id.getD 0
    match get_project_and_check_read_access db current_user pid with
    | .error e => (.error e, [])
    | .ok _ =>
      (.ok (get_issues_by_project_id db pid skip limit), [.byProject pid])
  else
    (.error ⟨400, "A filter (project_id or sprint_id) is required."⟩, [])

/-- Embeds routers/sprints.py read_sprint_by_id: 404 on a missing sprint;
then a single combined check `if not project or (non-admin and
non-owner)` raises 403, so a missing parent project is folded into the
same 403 as an authorization failure. -/
def read_sprint_by_id (db : DB) (current_user : UserRow) (sprint_id : Int) :
    Except HTTPException SprintRow :=
  match get_sprint_by_id db sprint_id with
  | none => .error ⟨404, "Sprint not found"⟩
  | some sprint =>
    match get_project_by_id db sprint.project_id with
    | none => .error ⟨403, "Not authorized to access this resource"⟩
    | some project =>
      if current_user.role ≠ "admin" ∧ project.owner_id ≠ current_user.user_id then
        .error ⟨403, "Not authorized to access this resource"⟩
      else .ok sprint

/-- Request body of a comment update (models/comment.py CommentUpdate). -/
structure CommentUpdate where
  comment_text : String
deriving DecidableEq, Repr

/-- Embeds crud/comment.py update_comment: UPDATE the comment_text of the
row with the given id, then re-fetch it. -/
def update_comment (db : DB) (comment_id : Int) (comment_in : CommentUpdate) :
    Option CommentRow × DB :=
  let db' : DB := { db with
    comments := db.comments.map (fun c =>
      if c.comment_id == comment_id then
        { c with comment_text := comment_in.comment_text }
      else c) }
  (get_comment_by_id db' comment_id, db')

/-- Embeds crud/comment.py delete_comment: DELETE by id; deleted flag is
rows_affected > 0. -/
def delete_comment (db : DB) (comment_id : Int) : Bool × DB :=
  ((get_comment_by_id db comment_id).isSome,
   { db with comments := db.comments.filter (fun c => c.comment_id != comment_id) })

/-- Embeds routers/comments.py update_existing_comment: 404 on a missing
comment; only admin or the original author may update (the parent
project's owner receives 403 like anyone else); then the update runs. -/
def update_existing_comment (db : DB) (current_user : UserRow)
    (comment_id : Int) (comment_in : CommentUpdate) :
    Except HTTPException CommentRow × DB :=
  match get_comment_by_id db comment_id with
  | none => (.error ⟨404, "Comment not found"⟩, db)
  | some db_comment =>
    if current_user.role ≠ "admin" ∧ db_comment.user_id ≠ some current_user.user_id then
      (.error ⟨403, "Not authorized to update this comment"⟩, db)
    else
      match update_comment db comment_id comment_in with
      | (none, db') => (.error ⟨404, "Comment not found during update"⟩, db')
      | (some updated, db') => (.ok updated, db')

/-- Embeds routers/comments.py delete_existing_comment: 404 on a missing
comment; when the parent issue is missing only admin or the author may
proceed (403 otherwise); then admin, author, or parent project's owner
may delete; then the DELETE runs. -/
def delete_existing_comment (db : DB) (current_user : UserRow)
    (comment_id : Int) : Except HTTPException Unit × DB :=
  match get_comment_by_id db comment_id with
  | none => (.error ⟨404, "Comment not found"⟩, db)
  | some db_comment =>
    let db_issue := get_issue_by_id db db_comment.issue_id
    if db_issue = none ∧ current_user.role ≠ "admin" ∧
        db_comment.user_id ≠ some current_user.user_id then
      (.error ⟨403, "Not authorized to delete this comment"⟩, db)
    else
      let project_owner_id : Option Int :=
        match db_issue with
        | some issue => (get_project_by_id db issue.project_id).map (fun p => p.owner_id)
        | none => none
      if current_user.role ≠ "admin" ∧
          db_comment.user_id ≠ some current_user.user_id ∧
          project_owner_id ≠ some current_user.user_id then
        (.error ⟨403, "Not authorized to delete this comment"⟩, db)
      else
        match delete_comment db comment_id with
        | (true, db') => (.ok (), db')
        | (false, db') =>
          (.error ⟨404, "Comment not found or could not be deleted"⟩, db')

/-- Allow-listed columns of crud/worklog.py update_worklog. -/
def worklogAllowedColumns : List String :=
  ["hours_logged", "work_date", "description"]

/-- Request body of a worklog update at the dict level the CRUD layer
sees: the fields that survived model_dump(exclude_unset=True). -/
abbrev WorklogUpdateFields := RowKV

/-- Embeds crud/worklog.py update_worklog over the structured DB: only
the allow-listed columns of the set fields are written; an empty or fully
filtered-out patch performs no UPDATE.  The Bool records whether an
UPDATE statement was executed. -/
def update_worklog (db : DB) (worklog_id : Int) (fields_to_update : RowKV) :
    Option WorklogRow × DB × Bool :=
  if fields_to_update.isEmpty then (get_worklog_by_id db worklog_id, db, false)
  else
    let set_clauses := fields_to_update.filter
      (fun kv => worklogAllowedColumns.contains kv.1)
    if set_clauses.isEmpty then (get_worklog_by_id db worklog_id, db, false)
    else
      let db' : DB := { db with
        worklogs := db.worklogs.map (fun w =>
          if w.worklog_id == worklog_id then
            { w with cols := applySetClauses set_clauses w.cols }
          else w) }
      (get_worklog_by_id db' worklog_id, db', true)

/-- Embeds crud/worklog.py delete_worklog: DELETE by id; deleted flag is
rows_affected > 0. -/
def delete_worklog (db : DB) (worklog_id : Int) : Bool × DB :=
  ((get_worklog_by_id db worklog_id).isSome,
   { db with worklogs := db.worklogs.filter (fun w => w.worklog_id != worklog_id) })

/-- Embeds routers/worklogs.py update_existing_worklog's authorization
gate: 404 on a missing worklog; only admin or the original author may
update (the parent project's owner receives 403 like anyone else); the
worklog columns a successful update touches are outside the structured
authorization fields, so a successful update returns the re-fetched row. -/
def update_existing_worklog (db : DB) (current_user : UserRow)
    (worklog_id : Int) (worklog_in : WorklogUpdateFields) :
    Except HTTPException (Option WorklogRow) × DB :=
  match get_worklog_by_id db worklog_id with
  | none => (.error ⟨404, "Worklog not found"⟩, db)
  | some db_worklog =>
    if current_user.role ≠ "admin" ∧ db_worklog.user_id ≠ some current_user.user_id then
      (.error ⟨403, "Not authorized to update this worklog"⟩, db)
    else
      let r := update_worklog db worklog_id worklog_in
      match r.1 with
      | none => (.error ⟨404, "Worklog not found during update"⟩, r.2.1)
      | some updated => (.ok (some updated), r.2.1)

/-- Embeds routers/worklogs.py delete_existing_worklog: 404 on a missing
worklog; when the parent issue is missing only admin or the author may
proceed; then admin, author, or parent project's owner may delete; then
the DELETE runs. -/
def delete_existing_worklog (db : DB) (current_user : UserRow)
    (worklog_id : Int) : Except HTTPException Unit × DB :=
  match get_worklog_by_id db worklog_id with
  | none => (.error ⟨404, "Worklog not found"⟩, db)
  | some db_worklog =>
    let db_issue := get_issue_by_id db db_worklog.issue_id
    if db_issue = none ∧ current_user.role ≠ "admin" ∧
        db_worklog.user_id ≠ some current_user.user_id then
      (.error ⟨403, "Not authorized to delete this worklog"⟩, db)
    else
      let project_owner_id : Option Int :=
        match db_issue with
        | some issue => (get_project_by_id db issue.project_id).map (fun p => p.owner_id)
        | none => none
      if current_user.role ≠ "admin" ∧
          db_worklog.user_id ≠ some current_user.user_id ∧
          project_owner_id ≠ some current_user.user_id then
        (.error ⟨403, "Not authorized to delete this worklog"⟩, db)
      else
        match delete_worklog db worklog_id with
        | (true, db') => (.ok (), db')
        | (false, db') =>
          (.error ⟨404, "Worklog not found or could not be deleted"⟩, db')

namespace Comments

/-- Embeds routers/comments.py get_issue_and_check_read_access: 404 on a
missing issue, 500 (inconsistent data) on a missing parent project, 403
when the principal is neither admin nor the project owner. -/
def get_issue_and_check_read_access (db : DB) (current_user : UserRow)
    (issue_id : Int) : Except HTTPException IssueRow :=
  match get_issue_by_id db issue_id with
  | none => .error ⟨404, "Issue not found"⟩
  | some db_issue =>
    match get_project_by_id db db_issue.project_id with
    | none => .error ⟨500, "Issue data is inconsistent"⟩
    | some project =>
      if current_user.role ≠ "admin" ∧ project.owner_id ≠ current_user.user_id then
        .error ⟨403, "Not authorized to access this project's resources"⟩
      else .ok db_issue

end Comments

namespace Attachments

/-- Embeds routers/attachments.py get_issue_and_check_read_access: 404 on
a missing issue, 500 (inconsistent data) on a missing parent project, 403
when the principal is neither admin nor the project owner. -/
def get_issue_and_check_read_access (db : DB) (current_user : UserRow)
    (issue_id : Int) : Except HTTPException IssueRow :=
  match get_issue_by_id db issue_id with
  | none => .error ⟨404, "Issue not found"⟩
  | some db_issue =>
    match get_project_by_id db db_issue.project_id with
    | none => .error ⟨500, "Issue data is inconsistent"⟩
    | some project =>
      if current_user.role ≠ "admin" ∧ project.owner_id ≠ current_user.user_id then
        .error ⟨403, "Not authorized to access this project's resources"⟩
      else .ok db_issue

end Attachments

/-- Payload of an attachment row insert (models/attachment.py
AttachmentCreate, fields used by the application logic). -/
structure AttachmentCreate where
  issue_id : Int
  user_id : Int
  file_name : String
  file_path : String
  file_size_bytes : Int
deriving DecidableEq, Repr

/-- Error raised by crud/attachment.py create_attachment: a ValueError
(missing issue / validation) or any other database error. -/
inductive CrudError where
  | valueError (msg : String)
  | otherError
deriving DecidableEq, Repr

/-- Outcome of the INSERT the database engine decides: success, a
ValueError-mapped failure, another failure, or success with no usable
last_insert_id (the code path that returns None). -/
inductive DBOutcome where
  | ok
  | valueError (msg : String)
  | otherError
  | noneResult
deriving DecidableEq, Repr

/-- Embeds crud/attachment.py create_attachment: INSERT the row, read
last_insert_id, and re-fetch; a database failure rolls the transaction
back (store unchanged) and is re-raised, mapped to a ValueError for a
missing issue.  The engine's verdict and the generated id are
parameters. -/
def create_attachment (db : DB) (attachment_in : AttachmentCreate)
    (newId : Int) (outcome : DBOutcome) :
    Except CrudError (Option AttachmentRow) × DB :=
  match outcome with
  | .ok =>
    let row : AttachmentRow :=
      { attachment_id := newId, issue_id := attachment_in.issue_id,
        user_id := some attachment_in.user_id,
        file_name := attachment_in.file_name,
        file_path := attachment_in.file_path }
    let db' : DB := { db with attachments := db.attachments ++ [row] }
    (.ok (get_attachment_by_id db' newId), db')
  | .valueError m => (.error (.valueError m), db)
  | .otherError => (.error .otherError, db)
  | .noneResult => (.ok none, db)

/-- Filesystem-level steps of the attachment upload handler, in the order
they were executed. -/
inductive UploadEvent where
  | fileWrite (path : String)
  | dbInsert
  | fileRemove (path : String)
deriving DecidableEq, Repr

/-- Final state of an upload request: HTTP outcome, store, filesystem,
and the ordered step trace. -/
structure UploadResult where
  response : Except HTTPException AttachmentRow
  db : DB
  fs : FS
  events : List UploadEvent
deriving Repr

/-- Embeds the filename sanitisation of routers/attachments.py
upload_new_attachment: keep alphanumerics and the characters . _ -, and
fall back to a default when nothing survives (or no name was sent). -/
def sanitizedFilename (filename : Option String) : String :=
  let original :=
    match filename with
    | none => "unknown_file"
    | some s => if s = "" then "unknown_file" else s
  let safe := String.mk (original.toList.filter
    (fun c => c.isAlphanum || c == '.' || c == '_' || c == '-'))
  if safe = "" then "attached_file" else safe

/-- Original filename as stored in the record (file.filename or the
fallback), per routers/attachments.py upload_new_attachment. -/
def originalFilename (filename : Option String) : String :=
  match filename with
  | none => "unknown_file"
  | some s => if s = "" then "unknown_file" else s

/-- Unique storage filename: generated uuid, underscore, sanitised
basename. -/
def uniqueFilename (filename : Option String) (uuid : String) : String :=
  uuid ++ "_" ++ sanitizedFilename filename

/-- Absolute path the upload handler writes to:
UPLOAD_DIRECTORY_NAME / unique filename. -/
def uploadFullPath (filename : Option String) (uuid : String) : String :=
  settingsUploadDirectoryName ++ "/" ++ uniqueFilename filename uuid

/-- Embeds routers/attachments.py upload_new_attachment.  The read-access
dependency runs first; the file is then written to disk; then the
database record is inserted; if the insert fails in any way the
just-written file is removed before the error response is returned.
`writeOk` models whether the filesystem write succeeds, `outcome` the
database engine's verdict on the INSERT, and `removeOk` whether the
rollback os.remove succeeds (its failure is only logged). -/
def upload_new_attachment (db : DB) (fs : FS) (current_user : UserRow)
    (issue_id : Int) (filename : Option String) (file_size_bytes : Int)
    (uuid : String) (writeOk : Bool) (outcome : DBOutcome) (removeOk : Bool)
    (newId : Int) : UploadResult :=
  match Attachments.get_issue_and_check_read_access db current_user issue_id with
  | .error e => ⟨.error e, db, fs, []⟩
  | .ok _ =>
    let full_file_path := uploadFullPath filename uuid
    if ¬ writeOk then
      ⟨.error ⟨500, "Could not save file."⟩, db, fs, []⟩
    else
      let fs1 : FS := ⟨fs.files ++ [full_file_path]⟩
      let attachment_data : AttachmentCreate :=
        { issue_id := issue_id, user_id := current_user.user_id,
          file_name := originalFilename filename,
          file_path := uniqueFilename filename uuid,
          file_size_bytes := file_size_bytes }
      let removed : FS :=
        if removeOk then ⟨fs1.files.filter (fun p => p != full_file_path)⟩
        else fs1
      match create_attachment db attachment_data newId outcome with
      | (.ok (some created), db') =>
        ⟨.ok created, db', fs1, [.fileWrite full_file_path, .dbInsert]⟩
      | (.ok none, db') =>
        ⟨.error ⟨500, "An internal error occurred."⟩, db', removed,
         [.fileWrite full_file_path, .dbInsert, .fileRemove full_file_path]⟩
      | (.error (.valueError m), db') =>
        ⟨.error ⟨400, m⟩, db', removed,
         [.fileWrite full_file_path, .dbInsert, .fileRemove full_file_path]⟩
      | (.error .otherError, db') =>
        ⟨.error ⟨500, "An internal error occurred."⟩, db', removed,
         [.fileWrite full_file_path, .dbInsert, .fileRemove full_file_path]⟩

/-- Final state of an attachment deletion in the CRUD layer. -/
structure AttachmentDeleteResult where
  deleted : Bool
  db : DB
  fs : FS
deriving DecidableEq, Repr

/-- Embeds crud/attachment.py delete_attachment: return false untouched
when the record is missing; otherwise DELETE the row first, then
best-effort remove the backing file (an absent file or a failing
os.remove is only logged), and report success either way. -/
def delete_attachment (db : DB) (fs : FS) (removeOk : Bool)
    (attachment_id : Int) : AttachmentDeleteResult :=
  match get_attachment_by_id db attachment_id with
  | none => ⟨false, db, fs⟩
  | some attachment =>
    let db' : DB := { db with
      attachments := db.attachments.filter
        (fun a => a.attachment_id != attachment_id) }
    let full_file_path :=
      settingsUploadDirectoryName ++ "/" ++ attachment.file_path
    let fs' : FS :=
      if fs.files.contains full_file_path then
        if removeOk then ⟨fs.files.filter (fun p => p != full_file_path)⟩
        else fs
      else fs
    ⟨true, db', fs'⟩

/-- Embeds routers/attachments.py delete_existing_attachment: 404 on a
missing record; when the parent issue is missing only admin or the
uploader may proceed (403 otherwise); then admin, uploader, or parent
project's owner may delete; then the CRUD delete runs. -/
def delete_existing_attachment (db : DB) (fs : FS) (removeOk : Bool)
    (current_user : UserRow) (attachment_id : Int) :
    Except HTTPException Unit × DB × FS :=
  match get_attachment_by_id db attachment_id with
  | none => (.error ⟨404, "Attachment not found"⟩, db, fs)
  | some db_attachment =>
    let db_issue := get_issue_by_id db db_attachment.issue_id
    if db_issue = none ∧ current_user.role ≠ "admin" ∧
        db_attachment.user_id ≠ some current_user.user_id then
      (.error ⟨403, "Not authorized to delete this attachment"⟩, db, fs)
    else
      let project_owner_id : Option Int :=
        match db_issue with
        | some issue => (get_project_by_id db issue.project_id).map (fun p => p.owner_id)
        | none => none
      if current_user.role ≠ "admin" ∧
          db_attachment.user_id ≠ some current_user.user_id ∧
          project_owner_id ≠ some current_user.user_id then
        (.error ⟨403, "Not authorized to delete this attachment"⟩, db, fs)
      else
        let r := delete_attachment db fs removeOk attachment_id
        if r.deleted then (.ok (), r.db, r.fs)
        else (.error ⟨404, "Attachment not found or could not be deleted"⟩, r.db, r.fs)

/-- Python's round to the nearest integer with ties to even (the rounding
used by the built-in round). -/
def pyRoundHalfEven (q : ℚ) : ℤ :=
  let f := ⌊q⌋
  let r := q - (f : ℚ)
  if r < 1/2 then f
  else if r > 1/2 then f + 1
  else if f % 2 = 0 then f else f + 1

/-- Python's round(v, 2) on an exact decimal value: scale by 100, round
half to even, scale back. -/
def pyRound2 (q : ℚ) : ℚ := (pyRoundHalfEven (q * 100) : ℚ) / 100

/-- Embeds models/worklog.py WorklogBase.hours_must_be_positive_and_rounded:
reject a non-positive value with a ValueError, otherwise round to 2
decimal places. -/
def hours_must_be_positive_and_rounded (v : ℚ) : Except String ℚ :=
  if v ≤ 0 then .error "Hours logged must be positive"
  else .ok (pyRound2 v)

/-- Embeds models/worklog.py WorklogUpdate.hours_must_be_positive_optional:
an unset value passes through; a set non-positive value is rejected with
a ValueError; a set positive value is rounded to 2 decimal places. -/
def hours_must_be_positive_optional (v : Option ℚ) : Except String (Option ℚ) :=
  match v with
  | none => .ok none
  | some x =>
    if x ≤ 0 then .error "Hours logged must be positive"
    else .ok (some (pyRound2 x))

/-- A table as the dynamic-update code of the CRUD layer sees it: rows
are dicts keyed by column name, addressed by their integer primary
key. -/
structure Table where
  rows : List (Int × RowKV)
deriving DecidableEq, Repr

/-- Primary-key lookup in a dict-level table (the get_X_by_id re-fetch at
the end of every update function). -/
def getRowById (t : Table) (id : Int) : Option RowKV :=
  (t.rows.find? (fun r => r.1 == id)).map (fun r => r.2)

/-- Shared shape of the dynamic partial UPDATE in crud/user.py,
crud/project.py and crud/sprint.py: keep only the set fields that are in
the allow-list; with nothing left, perform no UPDATE and return the
current row; otherwise apply the SET clauses to the addressed row.  The
Bool records whether an UPDATE statement was executed. -/
def dynamicUpdate (allowed_columns : List String) (t : Table) (id : Int)
    (fields_to_update : RowKV) : Option RowKV × Table × Bool :=
  if fields_to_update.isEmpty then (getRowById t id, t, false)
  else
    let set_clauses := fields_to_update.filter
      (fun kv => allowed_columns.contains kv.1)
    if set_clauses.isEmpty then (getRowById t id, t, false)
    else
      let t' : Table := ⟨t.rows.map (fun r =>
        if r.1 == id then (r.1, applySetClauses set_clauses r.2) else r)⟩
      (getRowById t' id, t', true)

/-- Embeds crud/user.py update_user (allow-list email, first_name,
last_name, phone). -/
def update_user (t : Table) (user_id : Int) (fields_to_update : RowKV) :
    Option RowKV × Table × Bool :=
  dynamicUpdate ["email", "first_name", "last_name", "phone"] t user_id
    fields_to_update

/-- Embeds crud/project.py update_project (allow-list project_name,
description, start_date, end_date, status, owner_id). -/
def update_project (t : Table) (project_id : Int) (fields_to_update : RowKV) :
    Option RowKV × Table × Bool :=
  dynamicUpdate
    ["project_name", "description", "start_date", "end_date", "status",
     "owner_id"] t project_id fields_to_update

/-- Embeds crud/sprint.py update_sprint (allow-list sprint_name, goal,
start_date, end_date, status). -/
def update_sprint (t : Table) (sprint_id : Int) (fields_to_update : RowKV) :
    Option RowKV × Table × Bool :=
  dynamicUpdate ["sprint_name", "goal", "start_date", "end_date", "status"] t
    sprint_id fields_to_update

/-- Equality of handler outcomes is decidable, so concrete runs can be
checked by evaluation. -/
instance {e a : Type} [DecidableEq e] [DecidableEq a] :
    DecidableEq (Except e a) := fun x y =>
  match x, y with
  | .ok v, .ok w => decidable_of_iff (v = w) (by simp)
  | .error v, .error w => decidable_of_iff (v = w) (by simp)
  | .ok _, .error _ => isFalse (by simp)
  | .error _, .ok _ => isFalse (by simp)

/-- Whether a handler outcome is a success (no HTTPException raised). -/
def respIsOk {α : Type} : Except HTTPException α → Bool
  | .ok _ => true
  | .error _ => false

/-- Fixture: an administrator principal. -/
def adminUser : UserRow := ⟨1, "admin", "admin", "h1"⟩

/-- Fixture: the owner of the sample project. -/
def ownerUser : UserRow := ⟨2, "owner", "user", "h2"⟩

/-- Fixture: an ordinary user who authored the sample comment, worklog
and attachment and reported the sample issue. -/
def carolUser : UserRow := ⟨3, "carol", "user", "h3"⟩

/-- Fixture: an ordinary user unrelated to the sample data. -/
def daveUser : UserRow := ⟨4, "dave", "user", "h4"⟩

/-- Fixture: a project owned by ownerUser. -/
def exProject : ProjectRow := ⟨100, 2⟩

/-- Fixture: a sprint of exProject. -/
def exSprint : SprintRow := ⟨200, 100⟩

/-- Fixture: an issue of exProject reported by carolUser, unassigned. -/
def exIssue : IssueRow := ⟨300, 100, some 200, some 3, none, [("description", "demo issue")]⟩

/-- Fixture: a comment by carolUser on exIssue. -/
def exComment : CommentRow := ⟨400, 300, some 3, "hello"⟩

/-- Fixture: a worklog by carolUser on exIssue. -/
def exWorklog : WorklogRow := ⟨500, 300, some 3, [("hours_logged", "2.00")]⟩

/-- Fixture: an attachment by carolUser on exIssue. -/
def exAttachment : AttachmentRow := ⟨600, 300, some 3, "a.txt", "uuid0_a.txt"⟩

/-- Fixture: a consistent store holding the sample rows. -/
def exDB : DB :=
  ⟨[adminUser, ownerUser, carolUser, daveUser], [exProject], [exSprint],
   [exIssue], [exComment], [exWorklog], [exAttachment]⟩

/-- Fixture: a sprint whose parent project is missing. -/
def orphanSprint : SprintRow := ⟨1, 42⟩

/-- Fixture: an issue whose parent project is missing. -/
def orphanIssue : IssueRow := ⟨2, 42, none, some 3, none, []⟩

/-- Fixture: an attachment whose parent issue is missing. -/
def orphanAttachment : AttachmentRow := ⟨3, 77, some 3, "b.txt", "uuid1_b.txt"⟩

/-- Fixture: a comment whose parent issue is missing. -/
def orphanComment : CommentRow := ⟨4, 78, some 3, "zzz"⟩

/-- Fixture: a worklog whose parent issue is missing. -/
def orphanWorklog : WorklogRow := ⟨5, 79, some 3, []⟩

/-- Fixture: a store with dangling parent references (no projects, a
sprint and an issue pointing at a missing project, and a comment,
worklog and attachment pointing at missing issues). -/
def orphanDB : DB :=
  ⟨[adminUser, ownerUser, carolUser, daveUser], [], [orphanSprint],
   [orphanIssue], [orphanComment], [orphanWorklog], [orphanAttachment]⟩

/-- Fixture: a dict-level table with a single user-like row. -/
def exTable : Table :=
  ⟨[(7, [("username", "alice"), ("email", "a@x.io"), ("role", "user")])]⟩

/-- Claim C1, counterexample: daveUser is authenticated, is not an admin
and does not own exProject, yet reading the project by id returns the
project data (and the nested sprint/issue listings return data as well)
instead of the Forbidden the claim demands. -/
theorem C1_counterexample :
    get_project_by_id exDB 100 = some exProject ∧
    daveUser.role ≠ "admin" ∧
    exProject.owner_id ≠ daveUser.user_id ∧
    read_project_by_id exDB daveUser 100 = .ok exProject ∧
    read_project_sprints exDB daveUser 100 0 100 = .ok [exSprint] ∧
    read_project_issues exDB daveUser 100 0 100 = .ok [exIssue] := by
  decide

/-- Claim C1, amended: project read operations (read by id, nested sprint
and issue listings) are open to every authenticated principal: whenever
the project exists they return its data regardless of the principal's
role or ownership, when it is missing they return 404, and in no case do
they return Forbidden (every error they produce carries status 404). -/
theorem C1_project_reads_open_to_any_authenticated_user (db : DB)
    (u : UserRow) (project_id : Int) (skip limit : Nat) :
    (∀ p, get_project_by_id db project_id = some p →
      read_project_by_id db u project_id = .ok p ∧
      read_project_sprints db u project_id skip limit =
        .ok (get_sprints_by_project_id db project_id skip limit) ∧
      read_project_issues db u project_id skip limit =
        .ok (get_issues_by_project_id db project_id skip limit)) ∧
    (get_project_by_id db project_id = none →
      read_project_by_id db u project_id =
        .error ⟨404, "Project not found"⟩ ∧
      read_project_sprints db u project_id skip limit =
        .error ⟨404, "Project not found"⟩ ∧
      read_project_issues db u project_id skip limit =
        .error ⟨404, "Project not found"⟩) ∧
    (∀ e, read_project_by_id db u project_id = .error e →
      e.status_code = 404) ∧
    (∀ e, read_project_sprints db u project_id skip limit = .error e →
      e.status_code = 404) ∧
    (∀ e, read_project_issues db u project_id skip limit = .error e →
      e.status_code = 404) := by
  cases hp : get_project_by_id db project_id with
  | none =>
    have h1 : read_project_by_id db u project_id =
        .error ⟨404, "Project not found"⟩ := by
      simp only [read_project_by_id, hp]
    have h2 : read_project_sprints db u project_id skip limit =
        .error ⟨404, "Project not found"⟩ := by
      simp only [read_project_sprints, read_project_by_id, hp]
    have h3 : read_project_issues db u project_id skip limit =
        .error ⟨404, "Project not found"⟩ := by
      simp only [read_project_issues, read_project_by_id, hp]
    refine ⟨?_, fun _ => ⟨h1, h2, h3⟩, ?_, ?_, ?_⟩
    · intro p hps
      exact absurd hps (by simp)
    · intro e he
      have h := h1.symm.trans he
      injection h with h
      rw [← h]
    · intro e he
      have h := h2.symm.trans he
      injection h with h
      rw [← h]
    · intro e he
      have h := h3.symm.trans he
      injection h with h
      rw [← h]
  | some p =>
    have h1 : read_project_by_id db u project_id = .ok p := by
      simp only [read_project_by_id, hp]
    have h2 : read_project_sprints db u project_id skip limit =
        .ok (get_sprints_by_project_id db project_id skip limit) := by
      simp only [read_project_sprints, read_project_by_id, hp]
    have h3 : read_project_issues db u project_id skip limit =
        .ok (get_issues_by_project_id db project_id skip limit) := by
      simp only [read_project_issues, read_project_by_id, hp]
    refine ⟨?_, ?_, ?_, ?_, ?_⟩
    · intro p0 hps
      injection hps with hpp
      subst hpp
      exact ⟨h1, h2, h3⟩
    · intro hnone
      exact absurd hnone (by simp)
    · intro e he
      exact absurd (h1.symm.trans he) (by simp)
    · intro e he
      exact absurd (h2.symm.trans he) (by simp)
    · intro e he
      exact absurd (h3.symm.trans he) (by simp)

/-- Claim C1, witness: the amended theorem applied to daveUser: reading
the existing project 100 returns its data (and its sprint listing), and
reading the missing project 999 returns 404. -/
theorem C1_witness :
    read_project_by_id exDB daveUser 100 = .ok exProject ∧
    read_project_sprints exDB daveUser 100 0 100 =
      .ok (get_sprints_by_project_id exDB 100 0 100) ∧
    read_project_by_id exDB daveUser 999 =
      .error ⟨404, "Project not found"⟩ :=
  have hsome := (C1_project_reads_open_to_any_authenticated_user exDB
      daveUser 100 0 100).1 exProject (by decide)
  have hnone := (C1_project_reads_open_to_any_authenticated_user exDB
      daveUser 999 0 100).2.1 (by decide)
  ⟨hsome.1, hsome.2.1, hnone.1⟩

/-- Claim C3, counterexample: orphanSprint's parent project is missing,
and even for an administrator the sprint read handler reports 403
Forbidden, not the 500 inconsistent-data error the claim demands for
every parent-resolving check. -/
theorem C3_counterexample :
    get_sprint_by_id orphanDB 1 = some orphanSprint ∧
    get_project_by_id orphanDB orphanSprint.project_id = none ∧
    read_sprint_by_id orphanDB adminUser 1 =
      .error ⟨403, "Not authorized to access this resource"⟩ := by
  decide

/-- Claim C3, amended: the issue write-access helper and the comment and
attachment read-access helpers do report 500 inconsistent data on a
missing parent project, for every principal; but the handling is not
uniform: the sprint read handler folds a missing parent project into the
child's 403 for every principal, admins included, and the comment,
worklog and attachment delete handlers fold a missing parent issue into
a narrowed admin-or-author 403 check instead of reporting 500. -/
theorem C3_parent_resolution_not_uniform (db : DB) (fs : FS)
    (removeOk : Bool) (u : UserRow) (iid sid cid wid aid : Int)
    (issue : IssueRow) (sprint : SprintRow) (c : CommentRow)
    (w : WorklogRow) (a : AttachmentRow)
    (hi : get_issue_by_id db iid = some issue)
    (hip : get_project_by_id db issue.project_id = none)
    (hs : get_sprint_by_id db sid = some sprint)
    (hsp : get_project_by_id db sprint.project_id = none)
    (hc : get_comment_by_id db cid = some c)
    (hcz : get_issue_by_id db c.issue_id = none)
    (hw : get_worklog_by_id db wid = some w)
    (hwz : get_issue_by_id db w.issue_id = none)
    (ha : get_attachment_by_id db aid = some a)
    (haz : get_issue_by_id db a.issue_id = none)
    (hrole : u.role ≠ "admin")
    (hcauth : c.user_id ≠ some u.user_id)
    (hwauth : w.user_id ≠ some u.user_id)
    (haauth : a.user_id ≠ some u.user_id) :
    (∀ v : UserRow, get_issue_and_check_write_access db v iid =
      .error ⟨500, "Issue data is inconsistent"⟩) ∧
    (∀ v : UserRow, Comments.get_issue_and_check_read_access db v iid =
      .error ⟨500, "Issue data is inconsistent"⟩) ∧
    (∀ v : UserRow, Attachments.get_issue_and_check_read_access db v iid =
      .error ⟨500, "Issue data is inconsistent"⟩) ∧
    (∀ v : UserRow, read_sprint_by_id db v sid =
      .error ⟨403, "Not authorized to access this resource"⟩) ∧
    delete_existing_comment db u cid =
      (.error ⟨403, "Not authorized to delete this comment"⟩, db) ∧
    delete_existing_worklog db u wid =
      (.error ⟨403, "Not authorized to delete this worklog"⟩, db) ∧
    delete_existing_attachment db fs removeOk u aid =
      (.error ⟨403, "Not authorized to delete this attachment"⟩, db, fs) := by
  refine ⟨?_, ?_, ?_, ?_, ?_, ?_, ?_⟩
  · intro v
    simp only [get_issue_and_check_write_access, hi, hip]
  · intro v
    simp only [Comments.get_issue_and_check_read_access, hi, hip]
  · intro v
    simp only [Attachments.get_issue_and_check_read_access, hi, hip]
  · intro v
    simp only [read_sprint_by_id, hs, hsp]
  · simp only [delete_existing_comment, hc, hcz]
    rw [if_pos ⟨trivial, hrole, hcauth⟩]
  · simp only [delete_existing_worklog, hw, hwz]
    rw [if_pos ⟨trivial, hrole, hwauth⟩]
  · simp only [delete_existing_attachment, ha, haz]
    rw [if_pos ⟨trivial, hrole, haauth⟩]

/-- Claim C3, witness: the amended theorem applied to the orphan store:
even adminUser gets 500 from the issue write-access helper and 403 from
the orphan sprint read, and daveUser (neither admin nor author) gets the
narrowed 403 from the comment, worklog and attachment delete handlers. -/
theorem C3_witness :
    get_issue_and_check_write_access orphanDB adminUser 2 =
      .error ⟨500, "Issue data is inconsistent"⟩ ∧
    read_sprint_by_id orphanDB adminUser 1 =
      .error ⟨403, "Not authorized to access this resource"⟩ ∧
    delete_existing_comment orphanDB daveUser 4 =
      (.error ⟨403, "Not authorized to delete this comment"⟩, orphanDB) ∧
    delete_existing_worklog orphanDB daveUser 5 =
      (.error ⟨403, "Not authorized to delete this worklog"⟩, orphanDB) ∧
    delete_existing_attachment orphanDB ⟨[]⟩ true daveUser 3 =
      (.error ⟨403, "Not authorized to delete this attachment"⟩, orphanDB,
       ⟨[]⟩) :=
  have h := C3_parent_resolution_not_uniform orphanDB ⟨[]⟩ true daveUser
    2 1 4 5 3 orphanIssue orphanSprint orphanComment orphanWorklog
    orphanAttachment (by decide) (by decide) (by decide) (by decide)
    (by decide) (by decide) (by decide) (by decide) (by decide) (by decide)
    (by decide) (by decide) (by decide) (by decide)
  ⟨h.1 adminUser, h.2.2.2.1 adminUser, h.2.2.2.2.1, h.2.2.2.2.2.1,
   h.2.2.2.2.2.2⟩

/-- Claim C4: authenticate_user returns none both for an unknown username
and for a known username with a failing password verification, for every
external verifier; the two failure runs return the same value and, the
embedding being a total function, raise nothing. -/
theorem C4_authentication_failures_indistinguishable
    (ext : String → String → Option Bool) (db : DB)
    (username password : String) :
    (get_user_by_username db username = none →
      authenticate_user ext db username password = none) ∧
    (∀ u, get_user_by_username db username = some u →
      verify_password ext password u.password_hash = false →
      authenticate_user ext db username password = none) := by
  constructor
  · intro h
    simp only [authenticate_user, h]
  · intro u hu hv
    simp only [authenticate_user, hu, hv]
    simp [hv]

/-- Claim C4, witness: with a verifier that always rejects, both the
unknown username "nobody" and the known username "carol" with a wrong
password authenticate to none. -/
theorem C4_witness :
    authenticate_user (fun _ _ => some false) exDB "nobody" "pw" = none ∧
    authenticate_user (fun _ _ => some false) exDB "carol" "pw" = none :=
  ⟨(C4_authentication_failures_indistinguishable (fun _ _ => some false) exDB
      "nobody" "pw").1 (by decide),
   (C4_authentication_failures_indistinguishable (fun _ _ => some false) exDB
      "carol" "pw").2 carolUser (by decide) (by decide)⟩

/-- Claim C5: a principal who is not admin, not the project owner, not
the reporter and not the assignee receives 403 from issue update, status
change and delete, and the store is left unchanged, for any update
fields, status value and stored-procedure behaviour. -/
theorem C5_issue_write_forbidden_for_outsiders (db : DB) (u : UserRow)
    (iid : Int) (issue : IssueRow) (project : ProjectRow) (fields : RowKV)
    (status_in : String) (proc : DB → Int → String → Except String DB)
    (hi : get_issue_by_id db iid = some issue)
    (hp : get_project_by_id db issue.project_id = some project)
    (hrole : u.role ≠ "admin") (hown : project.owner_id ≠ u.user_id)
    (hrep : issue.reporter_id ≠ some u.user_id)
    (hass : issue.assignee_id ≠ some u.user_id) :
    update_existing_issue db u iid fields =
      (.error ⟨403, "Not authorized to modify this issue"⟩, db) ∧
    update_issue_status_endpoint proc db u iid status_in =
      (.error ⟨403, "Not authorized to modify this issue"⟩, db) ∧
    delete_issue_by_id db u iid =
      (.error ⟨403, "Not authorized to modify this issue"⟩, db) := by
  have hdep : get_issue_and_check_write_access db u iid =
      .error ⟨403, "Not authorized to modify this issue"⟩ := by
    simp only [get_issue_and_check_write_access, hi, hp]
    rw [if_pos ⟨hrole, hown, hrep, hass⟩]
  refine ⟨?_, ?_, ?_⟩
  · simp only [update_existing_issue, hdep]
  · simp only [update_issue_status_endpoint, hdep]
  · simp only [delete_issue_by_id, hdep]

/-- Claim C5, witness: daveUser (unrelated to exIssue) is refused all
three write operations on exIssue and exDB is unchanged. -/
theorem C5_witness :
    update_existing_issue exDB daveUser 300 [("description", "hij")] =
      (.error ⟨403, "Not authorized to modify this issue"⟩, exDB) ∧
    update_issue_status_endpoint (fun db _ _ => .ok db) exDB daveUser 300 "Done" =
      (.error ⟨403, "Not authorized to modify this issue"⟩, exDB) ∧
    delete_issue_by_id exDB daveUser 300 =
      (.error ⟨403, "Not authorized to modify this issue"⟩, exDB) :=
  C5_issue_write_forbidden_for_outsiders exDB daveUser 300 exIssue exProject
    [("description", "hij")] "Done" (fun db _ _ => .ok db) (by decide)
    (by decide) (by decide) (by decide) (by decide) (by decide)

/-- Updating the comment_text of the row a find? located commutes with
the per-row UPDATE map. -/
theorem find_comment_after_text_update (l : List CommentRow) (cid : Int)
    (c : CommentRow) (t : String)
    (h : l.find? (fun x => x.comment_id == cid) = some c) :
    (l.map (fun x =>
        if x.comment_id == cid then { x with comment_text := t } else x)).find?
      (fun x => x.comment_id == cid) = some { c with comment_text := t } := by
  induction l with
  | nil => simp at h
  | cons a l ih =>
    rw [List.map_cons]
    by_cases hb : (a.comment_id == cid) = true
    · rw [List.find?_cons_of_pos (p := fun (x : CommentRow) => x.comment_id == cid) _ hb] at h
      have hac : a = c := by simpa using h
      subst hac
      rw [if_pos hb]
      exact List.find?_cons_of_pos (p := fun (x : CommentRow) => x.comment_id == cid) _
        (by simpa using hb)
    · rw [List.find?_cons_of_neg (p := fun (x : CommentRow) => x.comment_id == cid) _
        (by simpa using hb)] at h
      rw [if_neg hb]
      rw [List.find?_cons_of_neg (p := fun (x : CommentRow) => x.comment_id == cid) _
        (by simpa using hb)]
      exact ih h

/-- Updating the cols of the row a find? located commutes with the
per-row UPDATE map. -/
theorem find_worklog_after_cols_update (l : List WorklogRow) (wid : Int)
    (w : WorklogRow) (sc : RowKV)
    (h : l.find? (fun x => x.worklog_id == wid) = some w) :
    (l.map (fun x =>
        if x.worklog_id == wid then
          { x with cols := applySetClauses sc x.cols }
        else x)).find? (fun x => x.worklog_id == wid) =
      some { w with cols := applySetClauses sc w.cols } := by
  induction l with
  | nil => simp at h
  | cons a l ih =>
    rw [List.map_cons]
    by_cases hb : (a.worklog_id == wid) = true
    · rw [List.find?_cons_of_pos (p := fun (x : WorklogRow) => x.worklog_id == wid) _ hb] at h
      have haw : a = w := by simpa using h
      subst haw
      rw [if_pos hb]
      exact List.find?_cons_of_pos (p := fun (x : WorklogRow) => x.worklog_id == wid) _
        (by simpa using hb)
    · rw [List.find?_cons_of_neg (p := fun (x : WorklogRow) => x.worklog_id == wid) _
        (by simpa using hb)] at h
      rw [if_neg hb]
      rw [List.find?_cons_of_neg (p := fun (x : WorklogRow) => x.worklog_id == wid) _
        (by simpa using hb)]
      exact ih h

/-- The worklog UPDATE always re-fetches an existing row. -/
theorem update_worklog_fst_isSome (db : DB) (wid : Int) (wi : RowKV)
    (w : WorklogRow) (hw : get_worklog_by_id db wid = some w) :
    ((update_worklog db wid wi).1).isSome = true := by
  simp only [update_worklog]
  by_cases h1 : wi.isEmpty
  · rw [if_pos h1]
    simp [hw]
  · rw [if_neg h1]
    by_cases h2 : (wi.filter (fun kv => worklogAllowedColumns.contains kv.1)).isEmpty
    · rw [if_pos h2]
      simp [hw]
    · rw [if_neg h2]
      have hfind := find_worklog_after_cols_update db.worklogs wid w
        (wi.filter (fun kv => worklogAllowedColumns.contains kv.1))
        (by simpa [get_worklog_by_id] using hw)
      simp only [get_worklog_by_id, hfind, Option.isSome_some]

/-- Claim C2, counterexample: ownerUser owns the project of the issue the
sample comment and worklog sit on, is not their author and is not an
admin, yet the comment and worklog UPDATE handlers answer 403 Forbidden,
contradicting the claim that the parent project's owner may update
them. -/
theorem C2_counterexample :
    get_comment_by_id exDB 400 = some exComment ∧
    get_issue_by_id exDB exComment.issue_id = some exIssue ∧
    get_project_by_id exDB exIssue.project_id = some exProject ∧
    exProject.owner_id = ownerUser.user_id ∧
    ownerUser.role ≠ "admin" ∧
    exComment.user_id ≠ some ownerUser.user_id ∧
    exWorklog.user_id ≠ some ownerUser.user_id ∧
    update_existing_comment exDB ownerUser 400 ⟨"edited"⟩ =
      (.error ⟨403, "Not authorized to update this comment"⟩, exDB) ∧
    update_existing_worklog exDB ownerUser 500 [("hours_logged", "1.00")] =
      (.error ⟨403, "Not authorized to update this worklog"⟩, exDB) := by
  decide

/-- Claim C2, amended: for comments and worklogs whose parent chain
resolves, UPDATE succeeds exactly for an admin or the original author —
the parent project's owner is NOT permitted and receives 403 — while
DELETE succeeds exactly for an admin, the original author, or the parent
project's owner. -/
theorem C2_update_author_only_delete_includes_owner (db : DB) (u : UserRow)
    (cid wid : Int) (c : CommentRow) (w : WorklogRow) (ci : CommentUpdate)
    (wi : WorklogUpdateFields) (ciss wiss : IssueRow)
    (cproj wproj : ProjectRow)
    (hc : get_comment_by_id db cid = some c)
    (hci : get_issue_by_id db c.issue_id = some ciss)
    (hcp : get_project_by_id db ciss.project_id = some cproj)
    (hw : get_worklog_by_id db wid = some w)
    (hwi : get_issue_by_id db w.issue_id = some wiss)
    (hwp : get_project_by_id db wiss.project_id = some wproj) :
    ((u.role = "admin" ∨ c.user_id = some u.user_id) →
      (update_existing_comment db u cid ci).1 =
        .ok { c with comment_text := ci.comment_text }) ∧
    (u.role ≠ "admin" → c.user_id ≠ some u.user_id →
      update_existing_comment db u cid ci =
        (.error ⟨403, "Not authorized to update this comment"⟩, db)) ∧
    ((u.role = "admin" ∨ w.user_id = some u.user_id) →
      respIsOk (update_existing_worklog db u wid wi).1 = true) ∧
    (u.role ≠ "admin" → w.user_id ≠ some u.user_id →
      update_existing_worklog db u wid wi =
        (.error ⟨403, "Not authorized to update this worklog"⟩, db)) ∧
    ((u.role = "admin" ∨ c.user_id = some u.user_id ∨
        cproj.owner_id = u.user_id) →
      (delete_existing_comment db u cid).1 = .ok ()) ∧
    (u.role ≠ "admin" → c.user_id ≠ some u.user_id →
        cproj.owner_id ≠ u.user_id →
      delete_existing_comment db u cid =
        (.error ⟨403, "Not authorized to delete this comment"⟩, db)) ∧
    ((u.role = "admin" ∨ w.user_id = some u.user_id ∨
        wproj.owner_id = u.user_id) →
      (delete_existing_worklog db u wid).1 = .ok ()) ∧
    (u.role ≠ "admin" → w.user_id ≠ some u.user_id →
        wproj.owner_id ≠ u.user_id →
      delete_existing_worklog db u wid =
        (.error ⟨403, "Not authorized to delete this worklog"⟩, db)) := by
  refine ⟨?_, ?_, ?_, ?_, ?_, ?_, ?_, ?_⟩
  · intro hok
    have hneg : ¬(u.role ≠ "admin" ∧ c.user_id ≠ some u.user_id) := by
      rcases hok with h | h
      · exact fun hcnd => hcnd.1 h
      · exact fun hcnd => hcnd.2 h
    simp only [update_existing_comment, hc]
    rw [if_neg hneg]
    have hfind := find_comment_after_text_update db.comments cid c
      ci.comment_text (by simpa [get_comment_by_id] using hc)
    simp only [update_comment, get_comment_by_id, hfind]
  · intro h1 h2
    simp only [update_existing_comment, hc]
    rw [if_pos ⟨h1, h2⟩]
  · intro hok
    have hneg : ¬(u.role ≠ "admin" ∧ w.user_id ≠ some u.user_id) := by
      rcases hok with h | h
      · exact fun hcnd => hcnd.1 h
      · exact fun hcnd => hcnd.2 h
    simp only [update_existing_worklog, hw]
    rw [if_neg hneg]
    obtain ⟨x, hx⟩ := Option.isSome_iff_exists.mp
      (update_worklog_fst_isSome db wid wi w hw)
    simp only [hx, respIsOk]
  · intro h1 h2
    simp only [update_existing_worklog, hw]
    rw [if_pos ⟨h1, h2⟩]
  · intro hok
    simp only [delete_existing_comment, hc, hci, Option.map_some', hcp]
    rw [if_neg (by simp)]
    have hneg : ¬(u.role ≠ "admin" ∧ c.user_id ≠ some u.user_id ∧
        some cproj.owner_id ≠ some u.user_id) := by
      rcases hok with h | h | h
      · exact fun hcnd => hcnd.1 h
      · exact fun hcnd => hcnd.2.1 h
      · exact fun hcnd => hcnd.2.2 (by rw [h])
    rw [if_neg hneg]
    simp only [delete_comment, get_comment_by_id]
    simp only [get_comment_by_id] at hc
    simp only [hc, Option.isSome_some]
  · intro h1 h2 h3
    simp only [delete_existing_comment, hc, hci, Option.map_some', hcp]
    rw [if_neg (by simp)]
    rw [if_pos ⟨h1, h2, fun hsome => h3 (by injection hsome)⟩]
  · intro hok
    simp only [delete_existing_worklog, hw, hwi, Option.map_some', hwp]
    rw [if_neg (by simp)]
    have hneg : ¬(u.role ≠ "admin" ∧ w.user_id ≠ some u.user_id ∧
        some wproj.owner_id ≠ some u.user_id) := by
      rcases hok with h | h | h
      · exact fun hcnd => hcnd.1 h
      · exact fun hcnd => hcnd.2.1 h
      · exact fun hcnd => hcnd.2.2 (by rw [h])
    rw [if_neg hneg]
    simp only [delete_worklog, get_worklog_by_id]
    simp only [get_worklog_by_id] at hw
    simp only [hw, Option.isSome_some]
  · intro h1 h2 h3
    simp only [delete_existing_worklog, hw, hwi, Option.map_some', hwp]
    rw [if_neg (by simp)]
    rw [if_pos ⟨h1, h2, fun hsome => h3 (by injection hsome)⟩]

/-- Claim C2, witness: carolUser (the author) successfully updates her
comment, and ownerUser (the parent project's owner, not the author)
successfully deletes it. -/
theorem C2_witness :
    (update_existing_comment exDB carolUser 400 ⟨"edited"⟩).1 =
      .ok { exComment with comment_text := "edited" } ∧
    (delete_existing_comment exDB ownerUser 400).1 = .ok () :=
  ⟨(C2_update_author_only_delete_includes_owner exDB carolUser 400 500
      exComment exWorklog ⟨"edited"⟩ [] exIssue exIssue exProject exProject
      (by decide) (by decide) (by decide) (by decide) (by decide)
      (by decide)).1 (Or.inr (by decide)),
   (C2_update_author_only_delete_includes_owner exDB ownerUser 400 500
      exComment exWorklog ⟨"edited"⟩ [] exIssue exIssue exProject exProject
      (by decide) (by decide) (by decide) (by decide) (by decide)
      (by decide)).2.2.2.2.1 (Or.inr (Or.inr (by decide)))⟩

/-- Appending a fresh path and then filtering it away restores the
original file list. -/
theorem filter_out_fresh_path (l : List String) (p : String) (hp : p ∉ l) :
    (l ++ [p]).filter (fun q => q != p) = l := by
  rw [List.filter_append]
  have h1 : l.filter (fun q => q != p) = l :=
    List.filter_eq_self.mpr (fun a ha => by
      have : a ≠ p := fun he => hp (he ▸ ha)
      simpa using this)
  have h2 : ([p] : List String).filter (fun q => q != p) = [] := by simp
  rw [h1, h2, List.append_nil]

/-- Claim C6: the upload handler writes the file first and inserts the
database record second (for every engine outcome the step trace starts
with fileWrite then dbInsert), and when the insert fails in any way the
just-written file is removed again: the final filesystem and store equal
the initial ones and the response is an error. -/
theorem C6_upload_write_insert_rollback (db : DB) (fs : FS) (u : UserRow)
    (issue_id : Int) (filename : Option String) (file_size_bytes : Int)
    (uuid : String) (outcome : DBOutcome) (newId : Int) (issue : IssueRow)
    (hacc : Attachments.get_issue_and_check_read_access db u issue_id =
      .ok issue)
    (hfresh : uploadFullPath filename uuid ∉ fs.files) :
    (∀ oc removeOk,
      (upload_new_attachment db fs u issue_id filename file_size_bytes uuid
          true oc removeOk newId).events.take 2 =
        [.fileWrite (uploadFullPath filename uuid), .dbInsert]) ∧
    (outcome ≠ .ok →
      (upload_new_attachment db fs u issue_id filename file_size_bytes uuid
          true outcome true newId).db = db ∧
      (upload_new_attachment db fs u issue_id filename file_size_bytes uuid
          true outcome true newId).fs = fs ∧
      (upload_new_attachment db fs u issue_id filename file_size_bytes uuid
          true outcome true newId).events =
        [.fileWrite (uploadFullPath filename uuid), .dbInsert,
         .fileRemove (uploadFullPath filename uuid)] ∧
      respIsOk (upload_new_attachment db fs u issue_id filename
          file_size_bytes uuid true outcome true newId).response = false) := by
  constructor
  · intro oc removeOk
    simp only [upload_new_attachment, hacc]
    rw [if_neg (by simp)]
    cases oc with
    | ok =>
      simp only [create_attachment]
      cases hget : get_attachment_by_id
          { db with attachments := db.attachments ++
            [{ attachment_id := newId, issue_id := issue_id,
               user_id := some u.user_id,
               file_name := originalFilename filename,
               file_path := uniqueFilename filename uuid }] } newId with
      | none => simp [hget]
      | some created => simp [hget]
    | valueError m => simp [create_attachment]
    | otherError => simp [create_attachment]
    | noneResult => simp [create_attachment]
  · intro hne
    have hfs : (fs.files ++ [uploadFullPath filename uuid]).filter
        (fun q => q != uploadFullPath filename uuid) = fs.files :=
      filter_out_fresh_path fs.files (uploadFullPath filename uuid) hfresh
    cases outcome with
    | ok => exact absurd rfl hne
    | valueError m =>
      simp only [upload_new_attachment, hacc]
      rw [if_neg (by simp)]
      simp only [create_attachment]
      refine ⟨by trivial, ?_, by trivial, by trivial⟩
      show FS.mk ((fs.files ++ [uploadFullPath filename uuid]).filter (fun q =>
        q != uploadFullPath filename uuid)) = fs
      rw [hfs]
    | otherError =>
      simp only [upload_new_attachment, hacc]
      rw [if_neg (by simp)]
      simp only [create_attachment]
      refine ⟨by trivial, ?_, by trivial, by trivial⟩
      show FS.mk ((fs.files ++ [uploadFullPath filename uuid]).filter (fun q =>
        q != uploadFullPath filename uuid)) = fs
      rw [hfs]
    | noneResult =>
      simp only [upload_new_attachment, hacc]
      rw [if_neg (by simp)]
      simp only [create_attachment]
      refine ⟨by trivial, ?_, by trivial, by trivial⟩
      show FS.mk ((fs.files ++ [uploadFullPath filename uuid]).filter (fun q =>
        q != uploadFullPath filename uuid)) = fs
      rw [hfs]

/-- Claim C6, witness: ownerUser uploads to exIssue with a failing
insert; the trace is write-insert-remove and nothing is left behind. -/
theorem C6_witness :
    (upload_new_attachment exDB ⟨[]⟩ ownerUser 300 (some "report.pdf") 10
        "u1" true .otherError true 601).db = exDB ∧
    (upload_new_attachment exDB ⟨[]⟩ ownerUser 300 (some "report.pdf") 10
        "u1" true .otherError true 601).fs = (⟨[]⟩ : FS) ∧
    (upload_new_attachment exDB ⟨[]⟩ ownerUser 300 (some "report.pdf") 10
        "u1" true .otherError true 601).events =
      [.fileWrite (uploadFullPath (some "report.pdf") "u1"), .dbInsert,
       .fileRemove (uploadFullPath (some "report.pdf") "u1")] :=
  have h := (C6_upload_write_insert_rollback exDB ⟨[]⟩ ownerUser 300
      (some "report.pdf") 10 "u1" .otherError 601 exIssue (by decide)
      (by decide)).2 (by decide)
  ⟨h.1, h.2.1, h.2.2.1⟩

/-- Claim C7: deleting a missing attachment returns false and touches
neither the store nor the filesystem; deleting an existing attachment
always deletes the database record and reports success, also when the
backing file is absent or its removal fails (those leave the filesystem
unchanged). -/
theorem C7_delete_attachment_record_first_file_best_effort (db : DB)
    (fs : FS) (removeOk : Bool) (attachment_id : Int) :
    (get_attachment_by_id db attachment_id = none →
      delete_attachment db fs removeOk attachment_id = ⟨false, db, fs⟩) ∧
    (∀ a, get_attachment_by_id db attachment_id = some a →
      (delete_attachment db fs removeOk attachment_id).deleted = true ∧
      (delete_attachment db fs removeOk attachment_id).db =
        { db with attachments := db.attachments.filter (fun x =>
            x.attachment_id != attachment_id) } ∧
      (removeOk = false →
        (delete_attachment db fs removeOk attachment_id).fs = fs) ∧
      (fs.files.contains
          (settingsUploadDirectoryName ++ "/" ++ a.file_path) = false →
        (delete_attachment db fs removeOk attachment_id).fs = fs)) := by
  constructor
  · intro h
    simp only [delete_attachment, h]
  · intro a ha
    simp only [delete_attachment, ha]
    refine ⟨by trivial, by trivial, ?_, ?_⟩
    · intro hrem
      subst hrem
      by_cases hc : fs.files.contains
          (settingsUploadDirectoryName ++ "/" ++ a.file_path) = true
      · rw [if_pos hc]
        rw [if_neg (by simp)]
      · rw [if_neg hc]
    · intro hc
      rw [if_neg (by rw [hc]; simp)]

/-- Claim C7, witness: deleting the missing attachment 999 returns false
untouched, and deleting exAttachment with a failing file removal still
deletes the record and reports success. -/
theorem C7_witness :
    delete_attachment exDB ⟨[]⟩ true 999 = ⟨false, exDB, ⟨[]⟩⟩ ∧
    (delete_attachment exDB ⟨[]⟩ false 600).deleted = true ∧
    (delete_attachment exDB ⟨[]⟩ false 600).fs = (⟨[]⟩ : FS) :=
  have h := (C7_delete_attachment_record_first_file_best_effort exDB ⟨[]⟩
      false 600).2 exAttachment (by decide)
  ⟨(C7_delete_attachment_record_first_file_best_effort exDB ⟨[]⟩ true
      999).1 (by decide), h.1, h.2.2.1 rfl⟩

/-- Claim C8: the create validator rounds 3.456 to 3.46 and rejects every
non-positive value, and the update validator does the same for set
values. -/
theorem C8_worklog_hours_rounded_and_positive :
    hours_must_be_positive_and_rounded (3456/1000 : ℚ) = .ok (346/100 : ℚ) ∧
    (∀ v : ℚ, v ≤ 0 → hours_must_be_positive_and_rounded v =
      .error "Hours logged must be positive") ∧
    hours_must_be_positive_optional (some (3456/1000 : ℚ)) =
      .ok (some (346/100 : ℚ)) ∧
    (∀ v : ℚ, v ≤ 0 → hours_must_be_positive_optional (some v) =
      .error "Hours logged must be positive") := by
  have h1 : (3456 / 1000 : ℚ) * 100 = 1728 / 5 := by norm_num
  have hf : ⌊(1728 / 5 : ℚ)⌋ = 345 := by
    rw [Int.floor_eq_iff] <;> norm_num
  refine ⟨?_, ?_, ?_, ?_⟩
  · simp only [hours_must_be_positive_and_rounded]
    rw [if_neg (by norm_num)]
    simp only [pyRound2, pyRoundHalfEven, h1, hf]
    rw [if_neg (by norm_num), if_pos (by norm_num)]
    norm_num
  · intro v hv
    simp only [hours_must_be_positive_and_rounded]
    rw [if_pos hv]
  · simp only [hours_must_be_positive_optional]
    rw [if_neg (by norm_num)]
    simp only [pyRound2, pyRoundHalfEven, h1, hf]
    rw [if_neg (by norm_num), if_pos (by norm_num)]
    norm_num
  · intro v hv
    simp only [hours_must_be_positive_optional]
    rw [if_pos hv]

/-- Claim C8, witness: zero hours are rejected by both validators. -/
theorem C8_witness :
    hours_must_be_positive_and_rounded 0 =
      .error "Hours logged must be positive" ∧
    hours_must_be_positive_optional (some 0) =
      .error "Hours logged must be positive" :=
  ⟨C8_worklog_hours_rounded_and_positive.2.1 0 (le_refl 0),
   C8_worklog_hours_rounded_and_positive.2.2.2 0 (le_refl 0)⟩

/-- A successful project read-access check means the project resolved
and the principal is an admin or its owner. -/
theorem read_access_ok_of_checked (db : DB) (u : UserRow) (pid : Int)
    (p : ProjectRow)
    (h : get_project_and_check_read_access db u pid = .ok p) :
    ∃ p0, get_project_by_id db pid = some p0 ∧
      (u.role = "admin" ∨ p0.owner_id = u.user_id) := by
  simp only [get_project_and_check_read_access] at h
  split at h
  · exact absurd h (by simp)
  · rename_i p0 hp
    split at h
    · exact absurd h (by simp)
    · rename_i hcond
      refine ⟨p0, hp, ?_⟩
      rcases not_and_or.mp hcond with h1 | h1
      · exact Or.inl (not_not.mp h1)
      · exact Or.inr (not_not.mp h1)

/-- Claim C9: listing issues with neither a project_id nor a sprint_id
filter yields the 400 validation error and executes no issue-store
query, and any executed issue-store query comes after a resolved,
authorized project check. -/
theorem C9_issue_list_requires_filter (db : DB) (u : UserRow)
    (skip limit : Nat) :
    read_issues db u none none skip limit =
      (.error ⟨400, "A filter (project_id or sprint_id) is required."⟩,
       []) ∧
    (∀ project_id sprint_id q,
      q ∈ (read_issues db u project_id sprint_id skip limit).2 →
      ∃ prid p0, get_project_by_id db prid = some p0 ∧
        (u.role = "admin" ∨ p0.owner_id = u.user_id)) := by
  constructor
  · rfl
  · intro pid sid q hq
    simp only [read_issues] at hq
    split at hq
    · split at hq
      · simp at hq
      · rename_i sprint hsp
        split at hq
        · simp at hq
        · rename_i p hacc
          obtain ⟨p0, hp0, hperm⟩ :=
            read_access_ok_of_checked db u sprint.project_id p hacc
          exact ⟨sprint.project_id, p0, hp0, hperm⟩
    · split at hq
      · split at hq
        · simp at hq
        · rename_i p hacc
          obtain ⟨p0, hp0, hperm⟩ :=
            read_access_ok_of_checked db u (pid.getD 0) p hacc
          exact ⟨pid.getD 0, p0, hp0, hperm⟩
      · simp at hq

/-- Claim C9, witness: daveUser's unfiltered issue list request on exDB
is refused with 400 and no issue-store query runs. -/
theorem C9_witness :
    read_issues exDB daveUser none none 0 100 =
      (.error ⟨400, "A filter (project_id or sprint_id) is required."⟩,
       []) :=
  (C9_issue_list_requires_filter exDB daveUser 0 100).1

/-- Claim C10: an update whose set fields all lie outside the entity's
allow-list (in particular an empty patch) executes no UPDATE statement,
leaves the store untouched and returns the currently stored row, for
User, Project, Sprint, Issue and Worklog alike. -/
theorem C10_ignored_patch_is_identity (t : Table) (db : DB)
    (uid pid sid iid wid : Int) (fu fp fsp fi fw : RowKV)
    (hu : ∀ kv ∈ fu, kv.1 ∉
      (["email", "first_name", "last_name", "phone"] : List String))
    (hp : ∀ kv ∈ fp, kv.1 ∉
      (["project_name", "description", "start_date", "end_date", "status",
        "owner_id"] : List String))
    (hs : ∀ kv ∈ fsp, kv.1 ∉
      (["sprint_name", "goal", "start_date", "end_date", "status"] :
        List String))
    (hi : ∀ kv ∈ fi, kv.1 ∉ issueAllowedColumns)
    (hw : ∀ kv ∈ fw, kv.1 ∉ worklogAllowedColumns) :
    update_user t uid fu = (getRowById t uid, t, false) ∧
    update_project t pid fp = (getRowById t pid, t, false) ∧
    update_sprint t sid fsp = (getRowById t sid, t, false) ∧
    update_issue db iid fi = (get_issue_by_id db iid, db, false) ∧
    update_worklog db wid fw = (get_worklog_by_id db wid, db, false) := by
  refine ⟨?_, ?_, ?_, ?_, ?_⟩
  · have hfil : fu.filter (fun kv =>
        (["email", "first_name", "last_name", "phone"] : List String).contains
          kv.1) = [] :=
      List.filter_eq_nil_iff.mpr (fun kv hkv => by simpa using hu kv hkv)
    simp only [update_user, dynamicUpdate]
    by_cases he : fu.isEmpty
    · rw [if_pos he]
    · rw [if_neg he, hfil]
      simp
  · have hfil : fp.filter (fun kv =>
        (["project_name", "description", "start_date", "end_date", "status",
          "owner_id"] : List String).contains kv.1) = [] :=
      List.filter_eq_nil_iff.mpr (fun kv hkv => by simpa using hp kv hkv)
    simp only [update_project, dynamicUpdate]
    by_cases he : fp.isEmpty
    · rw [if_pos he]
    · rw [if_neg he, hfil]
      simp
  · have hfil : fsp.filter (fun kv =>
        (["sprint_name", "goal", "start_date", "end_date", "status"] :
          List String).contains kv.1) = [] :=
      List.filter_eq_nil_iff.mpr (fun kv hkv => by simpa using hs kv hkv)
    simp only [update_sprint, dynamicUpdate]
    by_cases he : fsp.isEmpty
    · rw [if_pos he]
    · rw [if_neg he, hfil]
      simp
  · have hfil : fi.filter (fun kv => issueAllowedColumns.contains kv.1) = [] :=
      List.filter_eq_nil_iff.mpr (fun kv hkv => by simpa using hi kv hkv)
    simp only [update_issue]
    by_cases he : fi.isEmpty
    · rw [if_pos he]
    · rw [if_neg he, hfil]
      simp
  · have hfil : fw.filter (fun kv =>
        worklogAllowedColumns.contains kv.1) = [] :=
      List.filter_eq_nil_iff.mpr (fun kv hkv => by simpa using hw kv hkv)
    simp only [update_worklog]
    by_cases he : fw.isEmpty
    · rw [if_pos he]
    · rw [if_neg he, hfil]
      simp

/-- Claim C10, witness: a patch touching only the disallowed column role
leaves the user table unchanged, and an empty patch leaves the issue
store unchanged. -/
theorem C10_witness :
    update_user exTable 7 [("role", "admin")] =
      (getRowById exTable 7, exTable, false) ∧
    update_issue exDB 300 [] = (get_issue_by_id exDB 300, exDB, false) :=
  have h := C10_ignored_patch_is_identity exTable exDB 7 0 0 300 500
    [("role", "admin")] [] [] [] [] (by decide) (by simp) (by simp)
    (by simp) (by simp)
  ⟨h.1, h.2.2.2.1⟩
